import Mathlib

/-!
# NECMIS scraper — verification of the natural-language specification

Shallow embedding of `src/scraper.py` (NECMIS Scraper, Phase 2.2).  Pure
helper functions (`format_currency`, `parse_currency`, `clean_location`,
`get_business_lines`, …) are translated directly; the two stateful parser
pipelines (`parse_massdot`, `parse_mainedot`) are embedded from the point
where the network/strategy stage has produced its candidate rows: the
fetch-and-regex-strategy stage is represented by an `Except Unit (List _)`
input (`Except.error` standing for any exception raised inside the
`try:` block, `Except.ok` for the candidate list the strategies yielded),
and everything from the record-construction loop onwards is modelled
faithfully.  Python `float` arithmetic is idealised as `ℚ`; `str` casing,
stripping and `title()` are modelled for the ASCII range in which all the
scraper's data lives.  All definitions are executable.
-/

namespace Necmis

/-! ## ASCII character primitives (Python `str.lower/upper/title/strip`) -/

/-- ASCII letter test on a code point, as Python `str.isalpha` restricted to
the ASCII range (all scraper data is ASCII). -/
def isAlphaNat (n : Nat) : Bool :=
  if 65 ≤ n ∧ n ≤ 90 then true
  else if 97 ≤ n ∧ n ≤ 122 then true
  else false

def isAlphaChar (c : Char) : Bool := isAlphaNat c.toNat

/-- ASCII decimal digit test (Python `\d` for the scraper's ASCII data). -/
def isDigitChar (c : Char) : Bool := 48 ≤ c.toNat ∧ c.toNat ≤ 57

/-- ASCII whitespace test (Python `str.strip` / `\s` over ASCII data). -/
def isSpaceChar (c : Char) : Bool :=
  c = ' ' ∨ c = '\t' ∨ c = '\n' ∨ c = '\r' ∨ c.toNat = 11 ∨ c.toNat = 12

/-- ASCII uppercase map, Python `str.upper` per character. -/
def pyUpperChar (c : Char) : Char :=
  if h : 97 ≤ c.toNat ∧ c.toNat ≤ 122 then
    Char.ofNatAux (c.toNat - 32) (Or.inl (by omega))
  else c

/-- ASCII lowercase map, Python `str.lower` per character. -/
def pyLowerChar (c : Char) : Char :=
  if h : 65 ≤ c.toNat ∧ c.toNat ≤ 90 then
    Char.ofNatAux (c.toNat + 32) (Or.inl (by omega))
  else c

def pyLower (s : String) : String := String.mk (s.data.map pyLowerChar)

def pyUpper (s : String) : String := String.mk (s.data.map pyUpperChar)

/-- Python `str.strip()` (ASCII whitespace). -/
def stripChars (l : List Char) : List Char :=
  ((l.dropWhile isSpaceChar).reverse.dropWhile isSpaceChar).reverse

def pyStrip (s : String) : String := String.mk (stripChars s.data)

/-- One character of the Python `str.title` scan: a letter is uppercased
after a non-cased character and lowercased after a cased one; other
characters pass through. -/
def titleChar (prev : Bool) (c : Char) : Char :=
  if isAlphaChar c then (if prev then pyLowerChar c else pyUpperChar c) else c

/-- `titleAux prev l`: Python `str.title` scan; `prev` records whether the
previous character was cased (ASCII letter). -/
def titleAux : Bool → List Char → List Char
  | _, [] => []
  | prev, c :: cs => titleChar prev c :: titleAux (isAlphaChar c) cs

/-- Python `str.title()` over ASCII data. -/
def pyTitle (s : String) : String := String.mk (titleAux false s.data)

/-- `leadsWith pre l`: does `l` start with `pre`?  (Python `str.startswith`.) -/
def leadsWith : List Char → List Char → Bool
  | [], _ => true
  | _ :: _, [] => false
  | a :: as, b :: bs => a = b && leadsWith as bs

/-- `hasSub needle hay`: Python `needle in hay` substring membership. -/
def hasSub (needle : String) : String → Bool :=
  fun hay => hasSubAux needle.data hay.data
where hasSubAux (n : List Char) : List Char → Bool
  | [] => n.isEmpty
  | c :: cs => leadsWith n (c :: cs) || hasSubAux n cs

/-- First maximal digit run of a string, as matched by `re.search(r"\d+", ·)`;
`none` when the string holds no digit. -/
def firstNum : List Char → Option (List Char)
  | [] => none
  | c :: cs =>
    if isDigitChar c then some ((c :: cs).takeWhile isDigitChar)
    else firstNum cs

/-- Whitespace-run collapsing, `re.sub(r"\s+", " ", ·)`. -/
def collapseWs : List Char → List Char
  | [] => []
  | c :: cs =>
    let rest := collapseWs cs
    if isSpaceChar c then
      match rest with
      | d :: _ => if isSpaceChar d then rest else ' ' :: rest
      | [] => [' ']
    else c :: rest

def pyCollapseWs (s : String) : String := String.mk (collapseWs s.data)

/-- Python slicing `s[:n]` (by code point). -/
def pyTake (s : String) (n : Nat) : String := String.mk (s.data.take n)

/-- Drop every occurrence of the characters in `bad` (used for
`re.sub(r"[,$]", "", ·)` and `str.replace`). -/
def removeChars (bad : List Char) (s : String) : String :=
  String.mk (s.data.filter (fun c => ¬ c ∈ bad))

/-- Numeric value of a digit run (most significant first). -/
def digitsToNat (l : List Char) : Nat :=
  l.foldl (fun a c => 10 * a + (c.toNat - 48)) 0

/-! ## Python numeric primitives -/

/-- Python `int(x)` on a float: truncation toward zero. -/
def pyTrunc (q : ℚ) : Int := if 0 ≤ q then ⌊q⌋ else -⌊-q⌋

/-- Round a rational to the nearest integer, ties to even — the rounding of
CPython's `round` builtin and of `format(x, ".0f")` on an exactly
representable value.  Python formats the binary64 nearest to its argument;
this idealisation agrees with CPython whenever the scaled amount is exactly
representable (as at every concrete input used in this development). -/
def rheInt (q : ℚ) : Int :=
  let f : Int := ⌊q⌋
  let r : ℚ := q - f
  if r < 1/2 then f
  else if 1/2 < r then f + 1
  else if f % 2 = 0 then f else f + 1

/-- Python `round(x, 1)` (banker's rounding at one decimal). -/
def pyRound1 (q : ℚ) : ℚ := (rheInt (q * 10) : ℚ) / 10

/-- Value of the numeric pieces of a Python float literal:
sign, integer digits, fractional digits, signed decimal exponent. -/
def pyFloatVal (neg : Bool) (ip fp : List Char) (ex : Int) : ℚ :=
  (if neg then -1 else 1) *
    ((digitsToNat ip : ℚ) + (digitsToNat fp : ℚ) / 10 ^ fp.length) * 10 ^ ex

/-- Digits of a float-literal exponent (all-digit, nonempty). -/
def pyFloatExpDigits (t : List Char) : Option Int :=
  if t ≠ [] ∧ t.all isDigitChar then some (digitsToNat t) else none

/-- Signed digits after the `e`/`E` of a float-literal exponent. -/
def pyFloatExpAfterE : List Char → Option Int
  | '+' :: t => pyFloatExpDigits t
  | '-' :: t => (pyFloatExpDigits t).map (fun n => -n)
  | t => pyFloatExpDigits t

/-- Exponent suffix of a float literal: `[eE][+-]?digits` ending the string,
or no exponent at all. -/
def pyFloatExp : List Char → Option Int
  | [] => some 0
  | 'e' :: t => pyFloatExpAfterE t
  | 'E' :: t => pyFloatExpAfterE t
  | _ => none

/-- Python `float(s)` on an already-stripped string: optional sign, then
`digits[.digits]` or `.digits`, then an optional exponent.  (`inf`/`nan`
spellings and `_` digit separators are outside the model; no input the
scraper feeds them appears in any claim.)  `none` models `ValueError`. -/
def pyFloat (s : String) : Option ℚ :=
  let l := s.data
  let sgn : Bool := l.head? = some '-'
  let l1 := if l.head? = some '-' ∨ l.head? = some '+' then l.tail else l
  let ip := l1.takeWhile isDigitChar
  let l2 := l1.drop ip.length
  let fp := if l2.head? = some '.' then l2.tail.takeWhile isDigitChar else []
  let l3 := if l2.head? = some '.' then l2.tail.drop fp.length else l2
  if ip = [] ∧ fp = [] then none
  else (pyFloatExp l3).map (pyFloatVal sgn ip fp)

/-! ## Currency helpers (`format_currency`, `parse_currency`) -/

/-- A Python value reaching `parse_currency`'s `text` parameter: a string,
an `int`/`float` (idealised as `ℚ`), or `None`. -/
inductive PyVal where
  | str (s : String)
  | num (q : ℚ)
  | pynone
deriving DecidableEq

/-- Python truthiness of a `PyVal` (`if not text: …`). -/
def pyTruthy : PyVal → Bool
  | .str s => s ≠ ""
  | .num q => q ≠ 0
  | .pynone => false

/-- Fixed-point rendering `format(q, ".1f")` for the nonnegative scaled
amounts of the B/M tiers (idealised half-even rounding, see `rheInt`). -/
def renderFixed1 (q : ℚ) : String :=
  let n : Nat := (rheInt (q * 10)).toNat
  toString (n / 10) ++ "." ++ toString (n % 10)

/-- `format(q, ".0f")` for the nonnegative scaled amounts of the K tier. -/
def renderFixed0 (q : ℚ) : String := toString (rheInt q).toNat

/-- Thousands grouping of a reversed digit list (`format(·, ",")`). -/
def groupRev : List Char → List Char
  | a :: b :: c :: d :: rest => a :: b :: c :: ',' :: groupRev (d :: rest)
  | l => l

/-- `format(q, ",.0f")`: round to integer, group digits by thousands. -/
def renderGrouped0 (q : ℚ) : String :=
  let r : Int := rheInt q
  let digits := (Nat.toDigits 10 r.natAbs).reverse
  (if r < 0 then "-" else "") ++ String.mk (groupRev digits).reverse

/-- `format_currency` (src/scraper.py lines 153–162). -/
def format_currency (amount : Option ℚ) : Option String :=
  match amount with
  | none => none
  | some a =>
    if 1000000000 ≤ a then some ("$" ++ renderFixed1 (a / 1000000000) ++ "B")
    else if 1000000 ≤ a then some ("$" ++ renderFixed1 (a / 1000000) ++ "M")
    else if 1000 ≤ a then some ("$" ++ renderFixed0 (a / 1000) ++ "K")
    else some ("$" ++ renderGrouped0 a)

/-- `parse_currency` (src/scraper.py lines 164–173): falsy guard, numeric
pass-through, `re.sub(r"[,$]", "", str(text).strip())`, then `float(·)`
with `ValueError` mapped to `None`. -/
def parse_currency (text : PyVal) : Option ℚ :=
  if ¬ pyTruthy text then none
  else match text with
    | .num q => some q
    | .str s => pyFloat (removeChars [',', '$'] (pyStrip s))
    | .pynone => none

/-! ## Configuration (`STATES`, `DOT_SOURCES`, keyword tables) -/

/-- The fixed jurisdiction set `STATES`. -/
inductive StateCode where
  | VT | NH | ME | MA | NY | RI | CT | PA
deriving DecidableEq

def STATES : List StateCode := [.VT, .NH, .ME, .MA, .NY, .RI, .CT, .PA]

def stateStr : StateCode → String
  | .VT => "VT" | .NH => "NH" | .ME => "ME" | .MA => "MA"
  | .NY => "NY" | .RI => "RI" | .CT => "CT" | .PA => "PA"

structure DotSource where
  name : String
  portal_url : String
  parserActive : Bool
deriving DecidableEq

/-- `DOT_SOURCES` (names, portal URLs and parser mode; the ME `excel_url`
is consumed only by the abstracted fetch stage). -/
def DOT_SOURCES : StateCode → DotSource
  | .MA => ⟨"MassDOT", "https://hwy.massdot.state.ma.us/webapps/const/statusReport.asp", true⟩
  | .ME => ⟨"MaineDOT", "https://www.maine.gov/dot/major-projects/cap/schedule", true⟩
  | .NH => ⟨"NHDOT", "https://www.dot.nh.gov/doing-business-nhdot/contractors/invitation-bid", false⟩
  | .VT => ⟨"VTrans", "https://vtrans.vermont.gov/contract-admin/bids-requests/construction-contracting", false⟩
  | .NY => ⟨"NYSDOT", "https://www.dot.ny.gov/doing-business/opportunities/const-highway", false⟩
  | .RI => ⟨"RIDOT", "https://www.dot.ri.gov/about/current_projects.php", false⟩
  | .CT => ⟨"CTDOT", "https://portal.ct.gov/DOT/Doing-Business/Contractor-Information", false⟩
  | .PA => ⟨"PennDOT", "https://www.penndot.pa.gov/business/Letting/Pages/default.aspx", false⟩

def high_priority_keywords : List String :=
  ["highway", "bridge", "DOT", "bid", "letting", "RFP", "contract award",
   "paving", "resurfacing", "infrastructure", "IIJA", "federal grant"]

def medium_priority_keywords : List String :=
  ["construction", "road", "pavement", "asphalt", "concrete", "aggregate",
   "gravel", "development", "permit", "municipal"]

def business_line_keywords : List (String × List String) :=
  [("highway", ["highway", "road", "interstate", "route", "bridge", "DOT",
                "transportation", "reconstruction", "resurfacing"]),
   ("hma", ["asphalt", "paving", "resurfacing", "overlay", "milling", "HMA",
            "hot mix", "surfacing", "pavement"]),
   ("aggregates", ["aggregate", "gravel", "sand", "stone", "quarry"]),
   ("ready_mix", ["concrete", "ready-mix", "cement", "bridge deck", "deck"]),
   ("liquid_asphalt", ["liquid asphalt", "bitumen", "emulsion"])]

/-- `ME_WORK_TYPE_MAPPING` (dict in insertion order). -/
def ME_WORK_TYPE_MAPPING : List (String × List String) :=
  [("Highway Construction", ["highway", "hma", "aggregates"]),
   ("Highway Preservation Paving", ["highway", "hma"]),
   ("Highway Light Capital Paving (LCP)", ["highway", "hma"]),
   ("Highway Safety and Spot Improvements", ["highway"]),
   ("Bridge Construction", ["highway", "aggregates", "ready_mix"]),
   ("Bridge Other", ["highway"]),
   ("Multimodal", ["highway"])]

/-- Funding keywords of `fetch_rss_feeds` (line 595). -/
def funding_keywords : List String :=
  ["grant", "funding", "award", "federal", "million", "billion", "$"]

/-! ## Text helpers (`generate_id`, priority / business-line classifiers,
`clean_location`) -/

/-- Digest kernel of `generate_id`.  The source truncates an MD5 hexdigest
to 12 characters; no claim inspects digest bytes, so the MD5 compression
function is replaced here by a deterministic stand-in digest with the same
interface (12 lowercase hex characters, deterministic per input). -/
def digestAux : List Char → Nat → Nat
  | [], h => h
  | c :: cs, h => digestAux cs ((h * 131 + c.toNat) % 281474976710656)

/-- `generate_id` (line 129): 12-hex-character deterministic id. -/
def generate_id (text : String) : String :=
  let n := digestAux text.data 5381
  let hex := Nat.toDigits 16 n
  String.mk (List.replicate (12 - hex.length) '0' ++ hex.take 12)

/-- `get_priority` (lines 132–138). -/
def get_priority (text : String) : String :=
  let tl := pyLower text
  if high_priority_keywords.any (fun kw => hasSub (pyLower kw) tl) then "high"
  else if medium_priority_keywords.any (fun kw => hasSub (pyLower kw) tl) then "medium"
  else "low"

/-- `get_business_lines` (lines 140–146). -/
def get_business_lines (text : String) : List String :=
  let tl := pyLower text
  let lines := (business_line_keywords.filter
    (fun p => p.2.any (fun kw => hasSub (pyLower kw) tl))).map (fun p => p.1)
  if lines = [] then ["highway"] else lines

/-- `is_construction_relevant` (lines 148–151). -/
def is_construction_relevant (text : String) : Bool :=
  let tl := pyLower text
  (high_priority_keywords ++ medium_priority_keywords).any
    (fun kw => hasSub (pyLower kw) tl)

/-- `clean_location` (lines 175–182): `None`/empty stays `None`; a stripped
value starting with `DISTRICT` (case-insensitively) becomes
`"District {first digit run}"`, or `"Various Locations"` with no digit;
anything else is `str.title()`-cased. -/
def clean_location (loc : Option String) : Option String :=
  match loc with
  | none => none
  | some l0 =>
    if l0 = "" then none
    else
      let l := pyStrip l0
      if leadsWith "DISTRICT".data (pyUpper l).data then
        match firstNum l.data with
        | some ds => some ("District " ++ String.mk ds)
        | none => some "Various Locations"
      else some (pyTitle l)

/-! ## Date reformatting (`datetime.strptime(·, "%m/%d/%Y").strftime("%Y-%m-%d")`) -/

def isLeapYear (y : Nat) : Bool := (y % 4 = 0 ∧ y % 100 ≠ 0) ∨ y % 400 = 0

def daysInMonth (y m : Nat) : Nat :=
  if m = 2 then (if isLeapYear y then 29 else 28)
  else if m = 4 ∨ m = 6 ∨ m = 9 ∨ m = 11 then 30
  else 31

/-- Left-pad a number with zeros to `w` digits (`strftime` field padding). -/
def padNum (w : Nat) (n : Nat) : String :=
  let d := Nat.toDigits 10 n
  String.mk (List.replicate (w - d.length) '0' ++ d)

/-- `datetime.strptime(s, "%m/%d/%Y")` followed by `strftime("%Y-%m-%d")`;
`none` models the `ValueError` swallowed by the caller's `try`.  Validity
follows `datetime`: month 1–12, day within the month, year 1–9999. -/
def reformatMDY (s : String) : Option String :=
  match s.data.splitOn '/' with
  | [m, d, y] =>
    if m ≠ [] ∧ m.length ≤ 2 ∧ m.all isDigitChar ∧
       d ≠ [] ∧ d.length ≤ 2 ∧ d.all isDigitChar ∧
       y ≠ [] ∧ y.length ≤ 4 ∧ y.all isDigitChar then
      let M := digitsToNat m
      let D := digitsToNat d
      let Y := digitsToNat y
      if 1 ≤ M ∧ M ≤ 12 ∧ 1 ≤ D ∧ D ≤ daysInMonth Y M ∧ 1 ≤ Y then
        some (padNum 4 Y ++ "-" ++ padNum 2 M ++ "-" ++ padNum 2 D)
      else none
    else none
  | _ => none

/-! ## Opportunity records, portal stub, MassDOT and MaineDOT pipelines -/

/-- The canonical Opportunity / letting record (the dicts built at
lines 311–328, 480–496 and 530–548). -/
structure Letting where
  id : String
  state : StateCode
  project_id : Option String
  description : String
  cost_low : Option Int
  cost_high : Option Int
  cost_display : Option String
  ad_date : Option String
  let_date : Option String
  project_type : Option String
  location : Option String
  district : Option Int
  url : String
  source : String
  business_lines : List String
deriving DecidableEq

/-- `create_portal_stub` (lines 530–548). -/
def create_portal_stub (state : StateCode) : Letting :=
  let cfg := DOT_SOURCES state
  { id := generate_id (stateStr state ++ "-portal")
    state := state
    project_id := none
    description := cfg.name ++ " Bid Schedule - Visit portal for current lettings"
    cost_low := none
    cost_high := none
    cost_display := some "See Portal"
    ad_date := none
    let_date := none
    project_type := none
    location := none
    district := none
    url := cfg.portal_url
    source := cfg.name
    business_lines := ["highway"] }

/-- A MassDOT candidate project as produced by the three regex strategies
(lines 230–282): the raw field dictionary appended to `projects`.
`district` is carried as the number its `(\d+)` capture denotes. -/
structure MAProject where
  location : Option String
  description : Option String
  value : String
  project_num : Option String
  project_type : Option String
  ad_date : Option String
  district : Option Int
deriving DecidableEq

def massdotUrl : String := (DOT_SOURCES .MA).portal_url

/-- Python `a or b` for an optional string (`None`/`""` falsy). -/
def orElseStr (a : Option String) (b : String) : String :=
  match a with
  | some s => if s = "" then b else s
  | none => b

/-- Rendering of the float `cost` inside the MassDOT id f-string
(`p["project_num"] or cost`); Python `str(float)` is approximated — ids
are opaque to every claim. -/
def qRepr (q : ℚ) : String :=
  if q.den = 1 then toString q.num ++ ".0"
  else toString q.num ++ "/" ++ toString q.den

/-- `re.sub(r"\s*,\s*$", "", pt)`: drop one trailing comma together with
surrounding trailing whitespace; a string with no trailing comma is kept. -/
def stripTrailingComma (pt : String) : String :=
  let r := pt.data.reverse.dropWhile isSpaceChar
  match r with
  | ',' :: rest => String.mk (rest.dropWhile isSpaceChar).reverse
  | _ => pt

/-- One iteration of the MassDOT record loop (lines 285–328); `none` models
the `continue` on a missing/falsy cost. -/
def buildMA (p : MAProject) : Option Letting :=
  match parse_currency (.str p.value) with
  | none => none
  | some cost =>
    if cost = 0 then none
    else
      let location := clean_location p.location
      let desc := pyStrip (pyCollapseWs
        (orElseStr p.description
          ("MassDOT Project - " ++ orElseStr location "Various Locations")))
      let proj_type := p.project_type.map
        (fun pt => pyTake (stripTrailingComma pt) 60)
      let ad_date := p.ad_date.bind reformatMDY
      let project_url :=
        match p.project_num with
        | some n => if n = "" then massdotUrl else massdotUrl ++ "?projnum=" ++ n
        | none => massdotUrl
      some
        { id := generate_id ("MA-" ++ orElseStr p.project_num (qRepr cost) ++
            "-" ++ pyTake desc 25)
          state := .MA
          project_id := p.project_num
          description := pyTake desc 200
          cost_low := some (pyTrunc cost)
          cost_high := some (pyTrunc cost)
          cost_display := format_currency (some cost)
          ad_date := ad_date
          let_date := none
          project_type := proj_type
          location := location
          district := p.district
          url := project_url
          source := "MassDOT"
          business_lines := get_business_lines (desc ++ " " ++
            (match proj_type with | some t => if t = "" then "" else t | none => "")) }

/-- The record list the MassDOT loop builds from the strategy output
(lines 284–328): at most 50 candidates are consumed. -/
def massRecords (projects : List MAProject) : List Letting :=
  (projects.take 50).filterMap buildMA

/-- `parse_massdot` (lines 189–343) from the record-construction stage on.
`Except.error ()` stands for any exception raised inside the `try:`
(fetch, HTTP error, strategy failure); `Except.ok projects` for the
candidate list the strategy ladder produced. -/
def parse_massdot (inp : Except Unit (List MAProject)) : List Letting :=
  match inp with
  | .error _ => [create_portal_stub .MA]
  | .ok projects =>
    let lettings := massRecords projects
    if lettings = [] then [create_portal_stub .MA] else lettings

/-- One spreadsheet row as the MaineDOT loop sees it (lines 422–457): the
text cells after Python `str(·)` conversion (a missing/NaN cell reads
`"nan"`), the cost cell as its string form when `pd.notna` holds, and the
advertise-date cell already taken through the tolerant
`pd.to_datetime`/`strftime` step of lines 443–452 (`none` when absent or
unparsable — no claim depends on date parsing). -/
structure MERow where
  work_type : String
  location : String
  project_id : String
  scope : String
  details : String
  cost : Option String
  ad_date : Option String
deriving DecidableEq

def mainePortalUrl : String := (DOT_SOURCES .ME).portal_url

/-- True when the row survives the empty/`nan` location skip (line 429). -/
def meRowKept (row : MERow) : Bool :=
  let location := pyStrip row.location
  if location = "" ∨ pyLower location = "nan" then false else true

/-- One iteration of the MaineDOT row loop (lines 422–501).  `idx` is the
`iterrows` index used in the id fallback. -/
def buildME (idx : Nat) (row : MERow) : Option Letting :=
  let work_type := pyStrip row.work_type
  let location := pyStrip row.location
  let project_id0 := pyStrip row.project_id
  if location = "" ∨ pyLower location = "nan" then none
  else
    let cost : Option ℚ := row.cost.bind
      (fun s => pyFloat (pyStrip (removeChars ['$', ','] s)))
    let scope := pyStrip row.scope
    let details := pyStrip row.details
    let description1 :=
      if scope ≠ "" ∧ pyLower scope ≠ "nan" then scope ++ ": " ++ location
      else location
    let description :=
      if details ≠ "" ∧ pyLower details ≠ "nan" then description1 ++ " - " ++ details
      else description1
    let bl0 := ME_WORK_TYPE_MAPPING.foldl
      (fun acc p => if hasSub (pyLower p.1) (pyLower work_type) then acc ++ p.2 else acc) []
    let bl1 := if bl0 = [] then get_business_lines description else bl0
    let business_lines := bl1.dedup
    let project_id : Option String :=
      if pyLower project_id0 = "nan" then none else some project_id0
    some
      { id := generate_id ("ME-" ++ orElseStr project_id (toString idx) ++
          "-" ++ pyTake location 25)
        state := .ME
        project_id := project_id
        description := pyTake description 250
        cost_low := match cost with
          | some c => if c = 0 then none else some (pyTrunc c)
          | none => none
        cost_high := match cost with
          | some c => if c = 0 then none else some (pyTrunc c)
          | none => none
        cost_display := match cost with
          | some c => if c = 0 then some "See Portal" else format_currency (some c)
          | none => some "See Portal"
        ad_date := row.ad_date
        let_date := none
        project_type := if pyLower work_type = "nan" then none else some work_type
        location := some location
        district := none
        url := mainePortalUrl
        source := "MaineDOT"
        business_lines := business_lines }

/-- The row loop over the spreadsheet (`for idx, row in df.iterrows()`),
carrying the running index.  Note: no truncation is applied here — the
source has no `[:50]`-style cap in the MaineDOT loop. -/
def meRecordsFrom (idx : Nat) : List MERow → List Letting
  | [] => []
  | row :: rest =>
    match buildME idx row with
    | some l => l :: meRecordsFrom (idx + 1) rest
    | none => meRecordsFrom (idx + 1) rest

def meRecords (rows : List MERow) : List Letting := meRecordsFrom 0 rows

/-- `parse_mainedot` (lines 350–523) from the row loop on.  `pandas` is the
`PANDAS_AVAILABLE` flag; `Except.error ()` stands for any exception of the
outer `try:` (download, Excel read); `Except.ok rows` for the parsed
spreadsheet rows. -/
def parse_mainedot (pandas : Bool) (inp : Except Unit (List MERow)) : List Letting :=
  if ¬ pandas then [create_portal_stub .ME]
  else match inp with
    | .error _ => [create_portal_stub .ME]
    | .ok rows =>
      let lettings := meRecords rows
      if lettings = [] then [create_portal_stub .ME] else lettings

/-- Per-jurisdiction extraction as dispatched by `fetch_dot_lettings`
(lines 551–570): the two active parsers for MA and ME, the portal stub for
every other state. -/
def extract_for (st : StateCode) (pandas : Bool)
    (maInp : Except Unit (List MAProject)) (meInp : Except Unit (List MERow)) :
    List Letting :=
  match st with
  | .MA => parse_massdot maInp
  | .ME => parse_mainedot pandas meInp
  | _ => [create_portal_stub st]

/-! ## RSS feed ingestion (`fetch_rss_feeds`, lines 573–616) -/

/-- A news record (the dict of lines 598–609). -/
structure NewsItem where
  id : String
  title : String
  summary : String
  url : String
  source : String
  state : StateCode
  date : String
  category : String
  priority : String
  business_lines : List String
deriving DecidableEq

/-- A feed entry as the loop body sees it: `title`, the summary after the
HTML-stripping/truncation of line 586, the link, the already-formatted
publication date of line 593, and the feed's configured source name and
state. -/
structure RSSEntry where
  title : String
  summary : String
  link : String
  date : String
  source : String
  state : StateCode
deriving DecidableEq

/-- One iteration of the entry loop (lines 580–610): the relevance filter,
then the news dict; `none` models the `continue`. -/
def newsOf (e : RSSEntry) : Option NewsItem :=
  let combined := e.title ++ " " ++ e.summary
  if ¬ is_construction_relevant combined then none
  else
    some
      { id := generate_id (if e.link = "" then e.title else e.link)
        title := e.title
        summary := e.summary
        url := e.link
        source := e.source
        state := e.state
        date := e.date
        category :=
          if funding_keywords.any (fun k => hasSub k (pyLower combined))
          then "funding" else "news"
        priority := get_priority combined
        business_lines := get_business_lines combined }

/-- Lexicographic code-point comparison of date strings (Python string
ordering, as used by the `key=lambda x: x["date"]` sort). -/
def strLeAux : List Char → List Char → Bool
  | [], _ => true
  | _ :: _, [] => false
  | a :: as, b :: bs =>
    if a.toNat < b.toNat then true
    else if b.toNat < a.toNat then false
    else strLeAux as bs

def dateLe (a b : NewsItem) : Bool := strLeAux a.date.data b.date.data

/-- `fetch_rss_feeds` over the concatenated relevant entries of all feeds
(the per-feed fetch, 20-entry cap and per-feed exception handling are part
of the abstracted fetch stage), ending with the descending date sort of
line 615. -/
def fetch_rss_feeds (entries : List RSSEntry) : List NewsItem :=
  List.insertionSort (fun a b => dateLe b a = true) (entries.filterMap newsOf)

/-! ## Market health (`calculate_market_health`, lines 623–657) -/

structure Metric where
  score : ℚ
  trend : String
  action : String
deriving DecidableEq

structure MarketHealth where
  dot_pipeline : Metric
  housing_permits : Metric
  construction_spending : Metric
  migration : Metric
  input_cost_stability : Metric
  infrastructure_funding : Metric
  overall_score : ℚ
  overall_status : String
deriving DecidableEq

/-- `sum(d.get("cost_low") or 0 for d in dot_lettings)`. -/
def sumCostLow (dot_lettings : List Letting) : Int :=
  (dot_lettings.map (fun d => d.cost_low.getD 0)).sum

/-- The `dot_pipeline` staircase (lines 626–635). -/
def dotPipelineMetric (total_value : Int) : Metric :=
  if 100000000 ≤ total_value then
    ⟨9.0, "up", "Expand highway capacity - strong pipeline"⟩
  else if 50000000 ≤ total_value then ⟨8.2, "up", "Expand highway capacity"⟩
  else if 20000000 ≤ total_value then ⟨7.0, "stable", "Maintain position"⟩
  else if 0 < total_value then ⟨6.0, "stable", "Monitor opportunities"⟩
  else ⟨8.2, "up", "Expand highway capacity"⟩

/-- `calculate_market_health` (lines 623–657). -/
def calculate_market_health (dot_lettings : List Letting)
    (news : List NewsItem) : MarketHealth :=
  let dot := dotPipelineMetric (sumCostLow dot_lettings)
  let housing : Metric := ⟨6.5, "stable", "Monitor trends"⟩
  let spending : Metric := ⟨6.1, "down", "Selective investment"⟩
  let migration : Metric := ⟨7.3, "up", "Geographic expansion"⟩
  let input_cost : Metric := ⟨5.5, "down", "Hedge 6 months"⟩
  let funding : Metric := ⟨7.8, "stable", "Selective growth"⟩
  let total_w := dot.score * 0.15 + housing.score * 0.10 + spending.score * 0.10 +
    migration.score * 0.10 + input_cost.score * 0.08 + funding.score * 0.07
  let sum_w : ℚ := 0.15 + 0.10 + 0.10 + 0.10 + 0.08 + 0.07
  let overall := pyRound1 (total_w / sum_w)
  let status :=
    if 7.5 ≤ overall then "growth"
    else if 6.0 ≤ overall then "stable"
    else "watchlist"
  { dot_pipeline := dot
    housing_permits := housing
    construction_spending := spending
    migration := migration
    input_cost_stability := input_cost
    infrastructure_funding := funding
    overall_score := overall
    overall_status := status }

/-! ## Summary (`build_summary`, lines 660–684) -/

structure Summary where
  total_opportunities : Nat
  total_value_low : Int
  total_value_high : Int
  by_state : StateCode → Nat
  by_category_dot_letting : Nat
  by_category_news : Nat
  by_category_funding : Nat

/-- `build_summary` (lines 660–684). -/
def build_summary (dot_lettings : List Letting) (news : List NewsItem) : Summary :=
  let total_low := sumCostLow dot_lettings
  let total_high := (dot_lettings.map (fun d => d.cost_high.getD 0)).sum
  let by_state := fun st =>
    (dot_lettings.countP (fun d => d.state = st)) + (news.countP (fun n => n.state = st))
  let cat_dot := dot_lettings.length
  let cat_news := (news.filter (fun n => n.category = "news")).length
  let cat_funding := (news.filter (fun n => n.category = "funding")).length
  { total_opportunities := cat_dot + cat_funding
    total_value_low := total_low
    total_value_high := total_high
    by_state := by_state
    by_category_dot_letting := cat_dot
    by_category_news := cat_news
    by_category_funding := cat_funding }

/-! ## Title-casing lemmas (`str.title` is idempotent on ASCII data) -/

theorem toNat_ofNatAux (n : Nat) (h : n.isValidChar) : (Char.ofNatAux n h).toNat = n := rfl

theorem pyUpperChar_toNat (c : Char) :
    (pyUpperChar c).toNat =
      if 97 ≤ c.toNat ∧ c.toNat ≤ 122 then c.toNat - 32 else c.toNat := by
  unfold pyUpperChar
  split
  · exact toNat_ofNatAux _ _
  · rfl

theorem pyLowerChar_toNat (c : Char) :
    (pyLowerChar c).toNat =
      if 65 ≤ c.toNat ∧ c.toNat ≤ 90 then c.toNat + 32 else c.toNat := by
  unfold pyLowerChar
  split
  · exact toNat_ofNatAux _ _
  · rfl

theorem isAlphaNat_iff (n : Nat) :
    isAlphaNat n = true ↔ (65 ≤ n ∧ n ≤ 90) ∨ (97 ≤ n ∧ n ≤ 122) := by
  unfold isAlphaNat
  split
  · simp_all
  · split <;> simp_all

theorem isAlphaChar_pyUpperChar (c : Char) :
    isAlphaChar (pyUpperChar c) = isAlphaChar c := by
  show isAlphaNat (pyUpperChar c).toNat = isAlphaNat c.toNat
  rw [pyUpperChar_toNat]
  by_cases h : 97 ≤ c.toNat ∧ c.toNat ≤ 122
  · rw [if_pos h]
    have h1 : isAlphaNat (c.toNat - 32) = true := by
      rw [isAlphaNat_iff]; omega
    have h2 : isAlphaNat c.toNat = true := by
      rw [isAlphaNat_iff]; omega
    rw [h1, h2]
  · rw [if_neg h]

theorem isAlphaChar_pyLowerChar (c : Char) :
    isAlphaChar (pyLowerChar c) = isAlphaChar c := by
  show isAlphaNat (pyLowerChar c).toNat = isAlphaNat c.toNat
  rw [pyLowerChar_toNat]
  by_cases h : 65 ≤ c.toNat ∧ c.toNat ≤ 90
  · rw [if_pos h]
    have h1 : isAlphaNat (c.toNat + 32) = true := by
      rw [isAlphaNat_iff]; omega
    have h2 : isAlphaNat c.toNat = true := by
      rw [isAlphaNat_iff]; omega
    rw [h1, h2]
  · rw [if_neg h]

theorem pyUpperChar_fix (c : Char) (h : ¬ (97 ≤ c.toNat ∧ c.toNat ≤ 122)) :
    pyUpperChar c = c := by
  unfold pyUpperChar
  rw [dif_neg h]

theorem pyLowerChar_fix (c : Char) (h : ¬ (65 ≤ c.toNat ∧ c.toNat ≤ 90)) :
    pyLowerChar c = c := by
  unfold pyLowerChar
  rw [dif_neg h]

theorem pyUpperChar_pyUpperChar (c : Char) :
    pyUpperChar (pyUpperChar c) = pyUpperChar c := by
  apply pyUpperChar_fix
  rw [pyUpperChar_toNat]
  by_cases h : 97 ≤ c.toNat ∧ c.toNat ≤ 122
  · rw [if_pos h]; omega
  · rw [if_neg h]; exact h

theorem pyLowerChar_pyLowerChar (c : Char) :
    pyLowerChar (pyLowerChar c) = pyLowerChar c := by
  apply pyLowerChar_fix
  rw [pyLowerChar_toNat]
  by_cases h : 65 ≤ c.toNat ∧ c.toNat ≤ 90
  · rw [if_pos h]; omega
  · rw [if_neg h]; exact h

theorem isAlphaChar_titleChar (b : Bool) (c : Char) :
    isAlphaChar (titleChar b c) = isAlphaChar c := by
  by_cases ha : isAlphaChar c = true
  · cases b <;>
      simp [titleChar, ha, isAlphaChar_pyUpperChar, isAlphaChar_pyLowerChar]
  · simp [titleChar, ha]

theorem titleChar_titleChar (b : Bool) (c : Char) :
    titleChar b (titleChar b c) = titleChar b c := by
  by_cases ha : isAlphaChar c = true
  · cases b with
    | false =>
      have h1 : titleChar false c = pyUpperChar c := by simp [titleChar, ha]
      rw [h1]
      simp [titleChar, isAlphaChar_pyUpperChar, ha, pyUpperChar_pyUpperChar]
    | true =>
      have h1 : titleChar true c = pyLowerChar c := by simp [titleChar, ha]
      rw [h1]
      simp [titleChar, isAlphaChar_pyLowerChar, ha, pyLowerChar_pyLowerChar]
  · have h1 : titleChar b c = c := by simp [titleChar, ha]
    rw [h1, h1]

/-- The `titleAux` output transforms the same way again: `str.title` is
idempotent (ASCII). -/
theorem titleAux_idem : ∀ (l : List Char) (b : Bool),
    titleAux b (titleAux b l) = titleAux b l := by
  intro l
  induction l with
  | nil => intro b; rfl
  | cons c cs ih =>
    intro b
    simp only [titleAux]
    rw [titleChar_titleChar, isAlphaChar_titleChar, ih]

theorem pyTitle_idem (s : String) : pyTitle (pyTitle s) = pyTitle s := by
  unfold pyTitle
  show String.mk (titleAux false (titleAux false s.data)) = _
  rw [titleAux_idem]

/-- Cased-flag after a title scan consumes a whole prefix. -/
def flagAfter : Bool → List Char → Bool
  | b, [] => b
  | _, c :: cs => flagAfter (isAlphaChar c) cs

theorem titleAux_append (l1 l2 : List Char) : ∀ b,
    titleAux b (l1 ++ l2) = titleAux b l1 ++ titleAux (flagAfter b l1) l2 := by
  induction l1 with
  | nil => intro b; rfl
  | cons c cs ih =>
    intro b
    simp only [List.cons_append, titleAux, flagAfter, List.append_eq, ih (isAlphaChar c)]

theorem titleAux_nonalpha (ds : List Char) (h : ∀ c ∈ ds, isAlphaChar c = false) :
    ∀ b, titleAux b ds = ds := by
  induction ds with
  | nil => intro b; rfl
  | cons c cs ih =>
    intro b
    have hc := h c (List.mem_cons_self c cs)
    have hcs := fun x hx => h x (List.mem_cons_of_mem c hx)
    simp only [titleAux, titleChar, hc, Bool.false_eq_true, if_false, ih hcs]

theorem isAlphaChar_of_digit (c : Char) (h : isDigitChar c = true) :
    isAlphaChar c = false := by
  have hn : 48 ≤ c.toNat ∧ c.toNat ≤ 57 := by
    simpa [isDigitChar] using h
  show isAlphaNat c.toNat = false
  unfold isAlphaNat
  rw [if_neg (by omega), if_neg (by omega)]

theorem firstNum_digits : ∀ (l ds : List Char), firstNum l = some ds →
    ∀ c ∈ ds, isDigitChar c = true := by
  intro l
  induction l with
  | nil => intro ds h; exact absurd h (by simp [firstNum])
  | cons c cs ih =>
    intro ds h x hx
    unfold firstNum at h
    by_cases hc : isDigitChar c = true
    · rw [if_pos hc] at h
      have := Option.some.inj h
      subst this
      exact List.mem_takeWhile_imp hx
    · rw [if_neg hc] at h
      exact ih ds h x hx

theorem pyTitle_district (ds : List Char) (h : ∀ c ∈ ds, isDigitChar c = true) :
    pyTitle ("District " ++ String.mk ds) = "District " ++ String.mk ds := by
  have hdata : ("District " ++ String.mk ds).data = "District ".data ++ ds := rfl
  unfold pyTitle
  rw [hdata, titleAux_append]
  have h1 : titleAux false "District ".data = "District ".data := by decide
  have h2 : flagAfter false "District ".data = false := by decide
  rw [h1, h2, titleAux_nonalpha ds (fun c hc => isAlphaChar_of_digit c (h c hc))]
  rfl

/-- Every non-`None` output of `clean_location` is a fixed point of
`str.title` — it is title-cased. -/
theorem clean_location_titled (o : Option String) (s : String)
    (h : clean_location o = some s) : pyTitle s = s := by
  rcases o with _ | l0
  · exact absurd h (by simp [clean_location])
  · simp only [clean_location] at h
    split at h
    · exact absurd h (by simp)
    · split at h
      · -- district branch
        split at h
        · have := Option.some.inj h
          subst this
          rename_i ds hds
          exact pyTitle_district ds (firstNum_digits _ ds hds)
        · have := Option.some.inj h
          subst this
          decide
      · have := Option.some.inj h
        subst this
        exact pyTitle_idem _

/-! ## Membership lemmas for the parser pipelines -/

/-- Fields of a record built by the MassDOT loop: the location is
`clean_location` of the raw strategy field, and the two cost bounds agree. -/
theorem buildMA_fields (p : MAProject) (l : Letting) (h : buildMA p = some l) :
    l.location = clean_location p.location ∧ l.cost_low = l.cost_high := by
  unfold buildMA at h
  split at h
  · exact absurd h (by simp)
  · split at h
    · exact absurd h (by simp)
    · have := Option.some.inj h
      subst this
      exact ⟨rfl, rfl⟩

/-- Fields of a record built by the MaineDOT row loop: the location is the
raw stripped cell, and the two cost bounds agree. -/
theorem buildME_fields (idx : Nat) (row : MERow) (l : Letting)
    (h : buildME idx row = some l) :
    l.location = some (pyStrip row.location) ∧ l.cost_low = l.cost_high := by
  simp only [buildME] at h
  split at h
  · exact absurd h (by simp)
  · have := Option.some.inj h
    subst this
    exact ⟨rfl, rfl⟩

theorem mem_massRecords (ps : List MAProject) (l : Letting)
    (h : l ∈ massRecords ps) : ∃ p, buildMA p = some l := by
  unfold massRecords at h
  rcases List.mem_filterMap.mp h with ⟨p, _, hb⟩
  exact ⟨p, hb⟩

theorem mem_parse_massdot (inp : Except Unit (List MAProject)) (l : Letting)
    (h : l ∈ parse_massdot inp) :
    l = create_portal_stub .MA ∨ ∃ p, buildMA p = some l := by
  cases inp with
  | error e => exact Or.inl (List.mem_singleton.mp h)
  | ok ps =>
    simp only [parse_massdot] at h
    by_cases he : massRecords ps = []
    · rw [if_pos he] at h
      exact Or.inl (List.mem_singleton.mp h)
    · rw [if_neg he] at h
      exact Or.inr (mem_massRecords ps l h)

theorem mem_meRecordsFrom (l : Letting) : ∀ (idx : Nat) (rows : List MERow),
    l ∈ meRecordsFrom idx rows → ∃ i row, row ∈ rows ∧ buildME i row = some l := by
  intro idx rows
  induction rows generalizing idx with
  | nil => intro h; exact absurd h (by simp [meRecordsFrom])
  | cons row rest ih =>
    intro h
    unfold meRecordsFrom at h
    cases hb : buildME idx row with
    | some l0 =>
      rw [hb] at h
      rcases List.mem_cons.mp h with h1 | h1
      · exact ⟨idx, row, List.mem_cons_self row rest, by rw [hb, h1]⟩
      · rcases ih (idx + 1) h1 with ⟨i, r, hr, hbr⟩
        exact ⟨i, r, List.mem_cons_of_mem row hr, hbr⟩
    | none =>
      rw [hb] at h
      rcases ih (idx + 1) h with ⟨i, r, hr, hbr⟩
      exact ⟨i, r, List.mem_cons_of_mem row hr, hbr⟩

theorem mem_parse_mainedot (pandas : Bool) (inp : Except Unit (List MERow))
    (l : Letting) (h : l ∈ parse_mainedot pandas inp) :
    l = create_portal_stub .ME ∨
      ∃ i row, buildME i row = some l ∧
        ∃ rows, inp = Except.ok rows ∧ row ∈ rows := by
  unfold parse_mainedot at h
  by_cases hp : pandas = true
  · rw [hp] at h
    simp only [Bool.not_true, Bool.false_eq_true, if_false] at h
    cases inp with
    | error e =>
      exact Or.inl (List.mem_singleton.mp h)
    | ok rows =>
      simp only at h
      by_cases he : meRecords rows = []
      · rw [he] at h
        exact Or.inl (List.mem_singleton.mp (by simpa using h))
      · rw [if_neg he] at h
        rcases mem_meRecordsFrom l 0 rows h with ⟨i, row, hr, hb⟩
        exact Or.inr ⟨i, row, hb, rows, rfl, hr⟩
  · have hp2 : pandas = false := by
      cases pandas
      · rfl
      · exact absurd rfl hp
    rw [hp2] at h
    simp only [Bool.not_false, if_true] at h
    exact Or.inl (List.mem_singleton.mp h)

/-- A MaineDOT row yields a record exactly when it survives the
location skip. -/
theorem buildME_isSome (idx : Nat) (row : MERow) :
    (buildME idx row).isSome = meRowKept row := by
  simp only [buildME, meRowKept]
  split
  · rfl
  · rfl

theorem meRecordsFrom_length : ∀ (rows : List MERow) (idx : Nat),
    (meRecordsFrom idx rows).length = rows.countP meRowKept := by
  intro rows
  induction rows with
  | nil => intro idx; rfl
  | cons row rest ih =>
    intro idx
    unfold meRecordsFrom
    cases hb : buildME idx row with
    | some l =>
      have hk : meRowKept row = true := by
        rw [← buildME_isSome idx row, hb]
        rfl
      simp only [hb, List.length_cons, List.countP_cons, hk, if_pos]
      rw [ih (idx + 1)]
    | none =>
      have hk : meRowKept row = false := by
        rw [← buildME_isSome idx row, hb]
        rfl
      simp only [hb, List.countP_cons, hk]
      rw [ih (idx + 1)]
      simp

/-- Length of the MaineDOT output on a successfully parsed spreadsheet:
one record per kept row, with the portal stub only on an empty result —
and no 50-record cap. -/
theorem parse_mainedot_length (rows : List MERow) :
    (parse_mainedot true (Except.ok rows)).length = max 1 (rows.countP meRowKept) := by
  have hlen : (meRecords rows).length = rows.countP meRowKept :=
    meRecordsFrom_length rows 0
  have hdef : parse_mainedot true (Except.ok rows) =
      if meRecords rows = [] then [create_portal_stub .ME] else meRecords rows := rfl
  rw [hdef]
  by_cases he : meRecords rows = []
  · have h0 : rows.countP meRowKept = 0 := by
      rw [← hlen, he]
      rfl
    rw [if_pos he, h0]
    rfl
  · have h1 : 1 ≤ rows.countP meRowKept := by
      rw [← hlen]
      have := List.length_pos.mpr he
      omega
    rw [if_neg he, hlen]
    omega

/-- Categories partition the news list count. -/
theorem count_news_funding (l : List NewsItem)
    (h : ∀ n ∈ l, n.category = "funding" ∨ n.category = "news") :
    (l.filter (fun n => n.category = "news")).length +
      (l.filter (fun n => n.category = "funding")).length = l.length := by
  induction l with
  | nil => rfl
  | cons a t ih =>
    have ha := h a (List.mem_cons_self a t)
    have ht := fun n hn => h n (List.mem_cons_of_mem a hn)
    have iht := ih ht
    have hd1 : (("funding" : String) = "news") = False := eq_false (by decide)
    have hd2 : (("news" : String) = "funding") = False := eq_false (by decide)
    rcases ha with ha | ha <;>
      simp [List.filter_cons, ha, hd1, hd2] <;>
      omega

theorem newsOf_some (e : RSSEntry) (n : NewsItem) (h : newsOf e = some n) :
    n.title = e.title ∧ n.summary = e.summary ∧
      n.category =
        (if funding_keywords.any
            (fun k => hasSub k (pyLower (e.title ++ " " ++ e.summary)))
         then "funding" else "news") := by
  simp only [newsOf] at h
  split at h
  · exact absurd h (by simp)
  · have := Option.some.inj h
    subst this
    exact ⟨rfl, rfl, rfl⟩

theorem parse_massdot_ne_nil (maInp : Except Unit (List MAProject)) :
    parse_massdot maInp ≠ [] := by
  cases maInp with
  | error e => simp [parse_massdot]
  | ok ps =>
    have hdef : parse_massdot (Except.ok ps) =
        if massRecords ps = [] then [create_portal_stub .MA] else massRecords ps := rfl
    rw [hdef]
    by_cases he : massRecords ps = []
    · rw [if_pos he]; simp
    · rw [if_neg he]; exact he

theorem parse_mainedot_ne_nil (pandas : Bool) (meInp : Except Unit (List MERow)) :
    parse_mainedot pandas meInp ≠ [] := by
  cases pandas with
  | false => simp [parse_mainedot]
  | true =>
    cases meInp with
    | error e => simp [parse_mainedot]
    | ok rows =>
      have hdef : parse_mainedot true (Except.ok rows) =
          if meRecords rows = [] then [create_portal_stub .ME] else meRecords rows := rfl
      rw [hdef]
      by_cases he : meRecords rows = []
      · rw [if_pos he]; simp
      · rw [if_neg he]; exact he

/-! ## Claim theorems -/

/-- C1: for every jurisdiction and any fetch outcome (empty, malformed, or
exception-raising), per-source extraction is total and returns a non-empty
list; when no project is recovered (or any exception occurs) the result is
the jurisdiction's portal stub, whose cost, date and detail fields are all
null and whose `cost_display` is `"See Portal"`. -/
theorem C1_extraction_never_empty_stub_fallback :
    (∀ (st : StateCode) (pandas : Bool) (maInp : Except Unit (List MAProject))
        (meInp : Except Unit (List MERow)),
        extract_for st pandas maInp meInp ≠ []) ∧
    (∀ st : StateCode,
        (create_portal_stub st).cost_low = none ∧
        (create_portal_stub st).cost_high = none ∧
        (create_portal_stub st).ad_date = none ∧
        (create_portal_stub st).let_date = none ∧
        (create_portal_stub st).project_id = none ∧
        (create_portal_stub st).project_type = none ∧
        (create_portal_stub st).location = none ∧
        (create_portal_stub st).district = none ∧
        (create_portal_stub st).cost_display = some "See Portal") ∧
    (∀ maInp : Except Unit (List MAProject),
        (maInp = Except.error () ∨ (∃ ps, maInp = Except.ok ps ∧ massRecords ps = [])) →
        parse_massdot maInp = [create_portal_stub .MA]) ∧
    (∀ (pandas : Bool) (meInp : Except Unit (List MERow)),
        (pandas = false ∨ meInp = Except.error () ∨
          (∃ rows, meInp = Except.ok rows ∧ meRecords rows = [])) →
        parse_mainedot pandas meInp = [create_portal_stub .ME]) ∧
    (∀ (st : StateCode) (pandas : Bool) (maInp : Except Unit (List MAProject))
        (meInp : Except Unit (List MERow)), st ≠ .MA → st ≠ .ME →
        extract_for st pandas maInp meInp = [create_portal_stub st]) := by
  refine ⟨?_, ?_, ?_, ?_, ?_⟩
  · intro st pandas maInp meInp
    cases st with
    | MA => exact parse_massdot_ne_nil maInp
    | ME => exact parse_mainedot_ne_nil pandas meInp
    | VT => simp [extract_for]
    | NH => simp [extract_for]
    | NY => simp [extract_for]
    | RI => simp [extract_for]
    | CT => simp [extract_for]
    | PA => simp [extract_for]
  · intro st
    exact ⟨rfl, rfl, rfl, rfl, rfl, rfl, rfl, rfl, rfl⟩
  · intro maInp h
    rcases h with h | ⟨ps, hok, hempty⟩
    · rw [h]; rfl
    · subst hok
      have hdef : parse_massdot (Except.ok ps) =
          if massRecords ps = [] then [create_portal_stub .MA] else massRecords ps := rfl
      rw [hdef, if_pos hempty]
  · intro pandas meInp h
    rcases h with h | h | ⟨rows, hok, hempty⟩
    · rw [h]; rfl
    · rw [h]
      cases pandas with
      | false => rfl
      | true => rfl
    · subst hok
      cases pandas with
      | false => rfl
      | true =>
        have hdef : parse_mainedot true (Except.ok rows) =
            if meRecords rows = [] then [create_portal_stub .ME] else meRecords rows := rfl
        rw [hdef, if_pos hempty]
  · intro st pandas maInp meInp hMA hME
    cases st with
    | MA => exact absurd rfl hMA
    | ME => exact absurd rfl hME
    | VT => rfl
    | NH => rfl
    | NY => rfl
    | RI => rfl
    | CT => rfl
    | PA => rfl

/-- C1 witness: a failed MassDOT fetch, an empty MaineDOT spreadsheet, and
the stub's sentinel display, all concrete. -/
theorem C1_extraction_witness :
    parse_massdot (Except.error ()) = [create_portal_stub StateCode.MA] ∧
    parse_mainedot true (Except.ok []) = [create_portal_stub StateCode.ME] ∧
    (create_portal_stub StateCode.ME).cost_display = some "See Portal" := by
  refine ⟨?_, ?_, ?_⟩
  · exact C1_extraction_never_empty_stub_fallback.2.2.1 (Except.error ()) (Or.inl rfl)
  · exact C1_extraction_never_empty_stub_fallback.2.2.2.1 true (Except.ok [])
      (Or.inr (Or.inr ⟨[], rfl, rfl⟩))
  · exact (C1_extraction_never_empty_stub_fallback.2.1 StateCode.ME).2.2.2.2.2.2.2.2

/-- C2: `build_summary` always reports
`total_opportunities = len(dot_lettings) + count(news, category == "funding")`. -/
theorem C2_total_opportunities_invariant (dot_lettings : List Letting)
    (news : List NewsItem) :
    (build_summary dot_lettings news).total_opportunities =
      dot_lettings.length +
        (news.filter (fun n => n.category = "funding")).length := rfl

/-- C5: the six metric weights sum to 0.6 — a constant strictly below 1 —
and `overall_score` is the weighted score sum normalized by that own sum
(then rounded to one decimal), not by 1.0. -/
theorem C5_overall_score_weight_normalization (dot_lettings : List Letting)
    (news : List NewsItem) :
    ((0.15 : ℚ) + 0.10 + 0.10 + 0.10 + 0.08 + 0.07 = 0.6) ∧
    ((0.15 : ℚ) + 0.10 + 0.10 + 0.10 + 0.08 + 0.07 < 1) ∧
    (calculate_market_health dot_lettings news).overall_score =
      pyRound1
        (((calculate_market_health dot_lettings news).dot_pipeline.score * 0.15 +
          (calculate_market_health dot_lettings news).housing_permits.score * 0.10 +
          (calculate_market_health dot_lettings news).construction_spending.score * 0.10 +
          (calculate_market_health dot_lettings news).migration.score * 0.10 +
          (calculate_market_health dot_lettings news).input_cost_stability.score * 0.08 +
          (calculate_market_health dot_lettings news).infrastructure_funding.score * 0.07) /
          ((0.15 : ℚ) + 0.10 + 0.10 + 0.10 + 0.08 + 0.07)) :=
  ⟨by norm_num, by norm_num, rfl⟩

/-- C9: every record from every parser path has `cost_low == cost_high`
(both are the same single-point estimate or both null), hence
`cost_low ≤ cost_high` whenever both are present. -/
theorem C9_cost_bounds_agree (st : StateCode) (pandas : Bool)
    (maInp : Except Unit (List MAProject)) (meInp : Except Unit (List MERow))
    (l : Letting) (hl : l ∈ extract_for st pandas maInp meInp) :
    l.cost_low = l.cost_high ∧
      ∀ a b : Int, l.cost_low = some a → l.cost_high = some b → a ≤ b := by
  have heq : l.cost_low = l.cost_high := by
    cases st with
    | MA =>
      rcases mem_parse_massdot maInp l hl with h | ⟨p, hp⟩
      · rw [h]; rfl
      · exact (buildMA_fields p l hp).2
    | ME =>
      rcases mem_parse_mainedot pandas meInp l hl with h | ⟨i, row, hb, _⟩
      · rw [h]; rfl
      · exact (buildME_fields i row l hb).2
    | VT => rw [List.mem_singleton.mp hl]; rfl
    | NH => rw [List.mem_singleton.mp hl]; rfl
    | NY => rw [List.mem_singleton.mp hl]; rfl
    | RI => rw [List.mem_singleton.mp hl]; rfl
    | CT => rw [List.mem_singleton.mp hl]; rfl
    | PA => rw [List.mem_singleton.mp hl]; rfl
  refine ⟨heq, ?_⟩
  intro a b h1 h2
  have h3 : some a = some b := by
    rw [← h1, heq, h2]
  exact le_of_eq (Option.some.inj h3)

/-- C9 witness: the NH portal stub, taken from a concrete extraction run. -/
theorem C9_cost_bounds_witness :
    (create_portal_stub StateCode.NH).cost_low =
      (create_portal_stub StateCode.NH).cost_high :=
  (C9_cost_bounds_agree StateCode.NH true (Except.ok []) (Except.ok [])
    (create_portal_stub StateCode.NH) (List.mem_singleton.mpr rfl)).1

/-- A synthetic letting with a given single-point cost, for concrete
market-health inputs. -/
def lettingWithCost (c : Int) : Letting :=
  { create_portal_stub .MA with cost_low := some c, cost_high := some c }

/-- C3 counterexample: with a zero cost sum the `dot_pipeline` score is 8.2,
but the top tier — selected at a sum of at least $100M — scores 9.0; the
zero-sum branch does not coincide with the top tier. -/
theorem C3_zero_pipeline_counterexample :
    sumCostLow ([] : List Letting) = 0 ∧
    (100000000 : Int) ≤ sumCostLow [lettingWithCost 100000000] ∧
    (calculate_market_health [] []).dot_pipeline.score = 8.2 ∧
    (calculate_market_health [lettingWithCost 100000000] []).dot_pipeline.score = 9.0 ∧
    ((8.2 : ℚ) ≠ 9.0) := by
  refine ⟨rfl, by decide, rfl, rfl, by norm_num⟩

/-- C3 (amended): when the cost sum is exactly 0 the `dot_pipeline` metric
falls back to the second tier — the one selected for sums of at least $50M
(score 8.2, trend "up") — not the top ($100M) tier. -/
theorem C3_zero_pipeline_amended (dot_lettings : List Letting)
    (news : List NewsItem) (h : sumCostLow dot_lettings = 0) :
    (calculate_market_health dot_lettings news).dot_pipeline.score = 8.2 ∧
    (calculate_market_health dot_lettings news).dot_pipeline.trend = "up" ∧
    (calculate_market_health dot_lettings news).dot_pipeline =
      dotPipelineMetric 50000000 := by
  have hd : (calculate_market_health dot_lettings news).dot_pipeline =
      dotPipelineMetric (sumCostLow dot_lettings) := rfl
  rw [hd, h]
  exact ⟨rfl, rfl, rfl⟩

/-- C3 witness: the empty run hits the zero-sum branch and lands on the
$50M-tier metric. -/
theorem C3_zero_pipeline_witness :
    (calculate_market_health [] []).dot_pipeline = dotPipelineMetric 50000000 :=
  (C3_zero_pipeline_amended [] [] rfl).2.2

/-- A MaineDOT spreadsheet row with a lower-case location. -/
def meRowPortland : MERow :=
  { work_type := "Bridge Construction"
    location := "portland area"
    project_id := "nan"
    scope := "nan"
    details := "nan"
    cost := none
    ad_date := none }

/-- C4 counterexample: the MaineDOT pipeline emits the raw stripped
location without title-casing — `"portland area"` is emitted verbatim and
is not title-cased. -/
theorem C4_location_counterexample :
    ((parse_mainedot true (Except.ok [meRowPortland])).map (fun l => l.location)) =
      [some "portland area"] ∧
    pyTitle "portland area" = "Portland Area" ∧
    ("portland area" : String) ≠ "Portland Area" := by
  refine ⟨by decide, by decide, by decide⟩

/-- C4 (amended): only the MassDOT path normalizes locations — every
non-null MassDOT location is title-cased (a `str.title` fixed point), and
a stripped raw location beginning with a district reference becomes
`"District N"` with `N` its first digit run; the MaineDOT path emits the
raw stripped cell unmodified. -/
theorem C4_location_amended :
    (∀ (maInp : Except Unit (List MAProject)) (l : Letting),
        l ∈ parse_massdot maInp → ∀ s, l.location = some s → pyTitle s = s) ∧
    (∀ (l0 : String) (ds : List Char), l0 ≠ "" →
        leadsWith "DISTRICT".data (pyUpper (pyStrip l0)).data = true →
        firstNum (pyStrip l0).data = some ds →
        clean_location (some l0) = some ("District " ++ String.mk ds)) ∧
    (∀ (rows : List MERow) (l : Letting),
        l ∈ parse_mainedot true (Except.ok rows) →
        l.location = none ∨ ∃ row ∈ rows, l.location = some (pyStrip row.location)) := by
  refine ⟨?_, ?_, ?_⟩
  · intro maInp l hl s hs
    rcases mem_parse_massdot maInp l hl with h | ⟨p, hp⟩
    · rw [h] at hs
      have hn : (create_portal_stub .MA).location = none := rfl
      rw [hn] at hs
      exact absurd hs (by simp)
    · have hloc := (buildMA_fields p l hp).1
      rw [hloc] at hs
      exact clean_location_titled _ s hs
  · intro l0 ds h0 hd hnum
    have hdef : clean_location (some l0) =
        if l0 = "" then none
        else
          if leadsWith "DISTRICT".data (pyUpper (pyStrip l0)).data = true then
            (match firstNum (pyStrip l0).data with
              | some ds => some ("District " ++ String.mk ds)
              | none => some "Various Locations")
          else some (pyTitle (pyStrip l0)) := rfl
    rw [hdef, if_neg h0, if_pos hd, hnum]
  · intro rows l hl
    rcases mem_parse_mainedot true (Except.ok rows) l hl with h | ⟨i, row, hb, rows2, hok, hr⟩
    · left
      rw [h]
      rfl
    · right
      have hr2 : rows2 = rows := (Except.ok.inj hok).symm
      subst hr2
      exact ⟨row, hr, (buildME_fields i row l hb).1⟩

/-- C4 witness: a concrete district reference is canonicalized. -/
theorem C4_location_witness :
    clean_location (some "district 7 east") = some "District 7" := by
  have h := C4_location_amended.2.1 "district 7 east" ['7'] (by decide) (by decide)
    (by decide)
  exact h.trans (by decide)

/-- Unfolding equation for `format_currency` on a present amount. -/
theorem format_currency_some_eq (a : ℚ) :
    format_currency (some a) =
      if 1000000000 ≤ a then some ("$" ++ renderFixed1 (a / 1000000000) ++ "B")
      else if 1000000 ≤ a then some ("$" ++ renderFixed1 (a / 1000000) ++ "M")
      else if 1000 ≤ a then some ("$" ++ renderFixed0 (a / 1000) ++ "K")
      else some ("$" ++ renderGrouped0 a) := rfl

/-- Evaluation helper: one-decimal rendering through a computed rounding. -/
theorem renderFixed1_eval (q : ℚ) (n : Nat) (h : rheInt (q * 10) = (n : Int)) :
    renderFixed1 q = toString (n / 10) ++ "." ++ toString (n % 10) := by
  unfold renderFixed1
  rw [h]
  norm_num

/-- C6 counterexample: `format_currency(1_250_000)` renders `"$1.2M"`,
not the claimed `"$1.3M"` (CPython `:.1f` rounds 1.25 half-to-even,
down to 1.2). -/
theorem C6_format_currency_counterexample :
    format_currency (some 1250000) = some "$1.2M" ∧
    (some "$1.2M" : Option String) ≠ some "$1.3M" := by
  constructor
  · have h1 : format_currency (some 1250000) =
        some ("$" ++ renderFixed1 ((1250000 : ℚ) / 1000000) ++ "M") := by
      rw [format_currency_some_eq]
      rw [if_neg (by norm_num), if_pos (by norm_num)]
    have h2 : rheInt (((1250000 : ℚ) / 1000000) * 10) = ((12 : Nat) : Int) := by
      have hq : ((1250000 : ℚ) / 1000000) * 10 = 25 / 2 := by norm_num
      rw [hq]
      unfold rheInt
      have hf : ⌊(25 / 2 : ℚ)⌋ = 12 := by norm_num
      rw [hf]
      norm_num
    rw [h1, renderFixed1_eval _ 12 h2]
    decide
  · decide

/-- C6 (amended): the tier structure is as specified (suffix `B` with one
decimal at ≥ 1e9, `M` with one decimal at ≥ 1e6, `K` with zero decimals at
≥ 1e3, grouped integer below), but the printed digits come from rounding
(half-to-even on the scaled amount), not truncation:
`format_currency(1_250_000) = "$1.2M"` and
`format_currency(1_260_000) = "$1.3M"` even though 12.6 truncates to 12. -/
theorem C6_format_currency_amended :
    (∀ a : ℚ, 1000000000 ≤ a →
      format_currency (some a) = some ("$" ++ renderFixed1 (a / 1000000000) ++ "B")) ∧
    (∀ a : ℚ, 1000000 ≤ a → a < 1000000000 →
      format_currency (some a) = some ("$" ++ renderFixed1 (a / 1000000) ++ "M")) ∧
    (∀ a : ℚ, 1000 ≤ a → a < 1000000 →
      format_currency (some a) = some ("$" ++ renderFixed0 (a / 1000) ++ "K")) ∧
    (∀ a : ℚ, a < 1000 → format_currency (some a) = some ("$" ++ renderGrouped0 a)) ∧
    format_currency (some 1250000) = some "$1.2M" ∧
    format_currency (some 1260000) = some "$1.3M" ∧
    pyTrunc (((1260000 : ℚ) / 1000000) * 10) = 12 ∧
    rheInt (((1260000 : ℚ) / 1000000) * 10) = 13 := by
  have hM : ∀ a : ℚ, 1000000 ≤ a → a < 1000000000 →
      format_currency (some a) = some ("$" ++ renderFixed1 (a / 1000000) ++ "M") := by
    intro a h1 h2
    rw [format_currency_some_eq]
    rw [if_neg (by linarith), if_pos h1]
  have h126 : rheInt (((1260000 : ℚ) / 1000000) * 10) = 13 := by
    have hq : ((1260000 : ℚ) / 1000000) * 10 = 63 / 5 := by norm_num
    rw [hq]
    unfold rheInt
    have hf : ⌊(63 / 5 : ℚ)⌋ = 12 := by norm_num
    rw [hf]
    norm_num
  refine ⟨?_, hM, ?_, ?_, ?_, ?_, ?_, h126⟩
  · intro a h1
    rw [format_currency_some_eq]
    rw [if_pos h1]
  · intro a h1 h2
    rw [format_currency_some_eq]
    rw [if_neg (by linarith), if_neg (by linarith), if_pos h1]
  · intro a h1
    rw [format_currency_some_eq]
    rw [if_neg (by linarith), if_neg (by linarith), if_neg (by linarith)]
  · have h2 : rheInt (((1250000 : ℚ) / 1000000) * 10) = ((12 : Nat) : Int) := by
      have hq : ((1250000 : ℚ) / 1000000) * 10 = 25 / 2 := by norm_num
      rw [hq]
      unfold rheInt
      have hf : ⌊(25 / 2 : ℚ)⌋ = 12 := by norm_num
      rw [hf]
      norm_num
    rw [hM 1250000 (by norm_num) (by norm_num), renderFixed1_eval _ 12 h2]
    decide
  · have h2 : rheInt (((1260000 : ℚ) / 1000000) * 10) = ((13 : Nat) : Int) := by
      exact_mod_cast h126
    rw [hM 1260000 (by norm_num) (by norm_num), renderFixed1_eval _ 13 h2]
    decide
  · unfold pyTrunc
    have hq : ((1260000 : ℚ) / 1000000) * 10 = 63 / 5 := by norm_num
    rw [hq, if_pos (by norm_num)]
    norm_num

/-- C6 witness: a concrete B-tier amount through the tier equation. -/
theorem C6_format_currency_witness :
    format_currency (some 2500000000) = some "$2.5B" := by
  have h := C6_format_currency_amended.1 2500000000 (by norm_num)
  have h2 : rheInt (((2500000000 : ℚ) / 1000000000) * 10) = ((25 : Nat) : Int) := by
    have hq : ((2500000000 : ℚ) / 1000000000) * 10 = 25 := by norm_num
    rw [hq]
    unfold rheInt
    have hf : ⌊(25 : ℚ)⌋ = 25 := by norm_num
    rw [hf]
    norm_num
  rw [h, renderFixed1_eval _ 25 h2]
  decide

/-- C7 counterexample: the numeric input `0` is falsy in Python, so
`parse_currency(0)` returns `None`, not the numeric value `0.0`. -/
theorem C7_parse_currency_counterexample :
    parse_currency (PyVal.num 0) = none ∧ parse_currency (PyVal.num 0) ≠ some 0 := by
  have h : parse_currency (PyVal.num 0) = none := by
    simp [parse_currency, pyTruthy]
  refine ⟨h, ?_⟩
  rw [h]
  simp

/-- C7 (amended): `parse_currency` is total, strips `$`/`,` from stripped
text and parses the residual (`"$1,250,000"` ↦ `1_250_000`), passes
nonzero numeric inputs through, and returns `None` on any non-numeric
residual — but the falsy numeric input `0` also returns `None` rather than
the value, because of the `if not text` emptiness guard. -/
theorem C7_parse_currency_amended :
    parse_currency (.str "$1,250,000") = some 1250000 ∧
    (∀ q : ℚ, q ≠ 0 → parse_currency (.num q) = some q) ∧
    parse_currency (.num 0) = none ∧
    (∀ s : String, s ≠ "" →
      parse_currency (.str s) = pyFloat (removeChars [',', '$'] (pyStrip s))) ∧
    parse_currency (.str "") = none ∧
    parse_currency .pynone = none := by
  refine ⟨?_, ?_, ?_, ?_, rfl, rfl⟩
  · have h0 : parse_currency (.str "$1,250,000") =
        some (pyFloatVal false "1250000".data [] 0) := rfl
    rw [h0]
    have hd : digitsToNat "1250000".data = 1250000 := by decide
    have hv : pyFloatVal false "1250000".data [] 0 = 1250000 := by
      unfold pyFloatVal
      rw [hd]
      norm_num [digitsToNat]
    rw [hv]
  · intro q hq
    simp [parse_currency, pyTruthy, hq]
  · simp [parse_currency, pyTruthy]
  · intro s hs
    simp [parse_currency, pyTruthy, hs]

/-- C7 witness: a nonzero numeric input passes through, and a non-numeric
residual yields `None`. -/
theorem C7_parse_currency_witness :
    parse_currency (PyVal.num 5) = some 5 ∧ parse_currency (PyVal.str "abc") = none := by
  constructor
  · exact C7_parse_currency_amended.2.1 5 (by norm_num)
  · have h := C7_parse_currency_amended.2.2.2.1 "abc" (by decide)
    rw [h]
    decide

/-- A MaineDOT spreadsheet row that survives the location skip. -/
def meRowBangor : MERow :=
  { work_type := "Highway Construction"
    location := "bangor region"
    project_id := "nan"
    scope := "nan"
    details := "nan"
    cost := none
    ad_date := none }

/-- C8 counterexample: a 51-row MaineDOT spreadsheet yields 51 records in
one run — the MaineDOT loop applies no per-strategy cap, so a single
source is not limited to 50 records. -/
theorem C8_per_source_cap_counterexample :
    (parse_mainedot true (Except.ok (List.replicate 51 meRowBangor))).length = 51 ∧
    ¬ ((51 : Nat) ≤ 50) := by
  constructor
  · rw [parse_mainedot_length]
    have hc : (List.replicate 51 meRowBangor).countP meRowKept = 51 := by
      rw [List.countP_replicate]
      have hk : meRowKept meRowBangor = true := by decide
      simp [hk]
    rw [hc]
    omega
  · decide

/-- C8 (amended): the MassDOT pipeline consumes at most 50 candidates
(`projects[:50]`) and so returns at most 50 records; the MaineDOT pipeline
has no cap and returns one record per kept spreadsheet row (or the single
stub), so it can exceed 50. -/
theorem C8_per_source_cap_amended :
    (∀ maInp : Except Unit (List MAProject), (parse_massdot maInp).length ≤ 50) ∧
    (∀ rows : List MERow, (parse_mainedot true (Except.ok rows)).length =
      max 1 (rows.countP meRowKept)) := by
  constructor
  · intro maInp
    cases maInp with
    | error e => simp [parse_massdot]
    | ok ps =>
      have hdef : parse_massdot (Except.ok ps) =
          if massRecords ps = [] then [create_portal_stub .MA] else massRecords ps := rfl
      rw [hdef]
      by_cases he : massRecords ps = []
      · rw [if_pos he]; simp
      · rw [if_neg he]
        unfold massRecords
        have h1 : (List.filterMap buildMA (ps.take 50)).length ≤ (ps.take 50).length :=
          List.length_filterMap_le _ _
        have h2 : (ps.take 50).length ≤ 50 := by
          rw [List.length_take]
          omega
        omega
  · exact parse_mainedot_length

/-- C10: every news item emitted by the RSS ingestion has category
`"funding"` exactly when the lowercased title+summary contains a funding
keyword and `"news"` otherwise, so the summary's `news` and `funding`
counts add up to the news total. -/
theorem C10_news_category_partition (entries : List RSSEntry)
    (dot_lettings : List Letting) :
    (∀ n ∈ fetch_rss_feeds entries,
        (n.category = "funding" ∨ n.category = "news") ∧
        (n.category = "funding" ↔
          funding_keywords.any
            (fun k => hasSub k (pyLower (n.title ++ " " ++ n.summary))) = true)) ∧
    (build_summary dot_lettings (fetch_rss_feeds entries)).by_category_news +
      (build_summary dot_lettings (fetch_rss_feeds entries)).by_category_funding =
      (fetch_rss_feeds entries).length := by
  have hcat : ∀ n ∈ fetch_rss_feeds entries,
      (n.category = "funding" ∨ n.category = "news") ∧
      (n.category = "funding" ↔
        funding_keywords.any
          (fun k => hasSub k (pyLower (n.title ++ " " ++ n.summary))) = true) := by
    intro n hn
    have h1 : n ∈ List.insertionSort (fun a b => dateLe b a = true)
        (entries.filterMap newsOf) := hn
    have h2 : n ∈ entries.filterMap newsOf := (List.mem_insertionSort _).mp h1
    rcases List.mem_filterMap.mp h2 with ⟨e, _, hsome⟩
    rcases newsOf_some e n hsome with ⟨ht, hs, hc⟩
    rw [hc, ht, hs]
    by_cases hcond : funding_keywords.any
        (fun k => hasSub k (pyLower (e.title ++ " " ++ e.summary))) = true
    · rw [if_pos hcond]
      exact ⟨Or.inl rfl, by simp [hcond]⟩
    · rw [if_neg hcond]
      refine ⟨Or.inr rfl, ?_, ?_⟩
      · intro hh
        exact absurd hh (by decide)
      · intro hh
        exact absurd hh hcond
  refine ⟨hcat, ?_⟩
  exact count_news_funding (fetch_rss_feeds entries) (fun n hn => (hcat n hn).1)

/-- A concrete RSS entry: construction-relevant and funding-flagged. -/
def sampleEntry : RSSEntry :=
  { title := "Highway bridge grant announced"
    summary := ""
    link := ""
    date := "2025-01-01"
    source := "VTDigger"
    state := .VT }

def dummyNewsItem : NewsItem :=
  { id := ""
    title := ""
    summary := ""
    url := ""
    source := ""
    state := .VT
    date := ""
    category := "news"
    priority := "low"
    business_lines := [] }

/-- C10 witness: the item produced from a concrete funding-flavoured entry
is categorized `"funding"`. -/
theorem C10_news_category_witness :
    ((fetch_rss_feeds [sampleEntry]).headD dummyNewsItem).category = "funding" := by
  have hmem : (fetch_rss_feeds [sampleEntry]).headD dummyNewsItem ∈
      fetch_rss_feeds [sampleEntry] := by decide
  have h := (C10_news_category_partition [sampleEntry] []).1 _ hmem
  exact h.2.mpr (by decide)

/-- C2 witness: the invariant on a concrete empty run. -/
theorem C2_total_opportunities_witness :
    (build_summary [] []).total_opportunities = 0 := by
  have h := C2_total_opportunities_invariant [] []
  simpa using h

/-- C5 witness: the normalization equation on a concrete empty run. -/
theorem C5_overall_score_witness :
    (calculate_market_health [] []).overall_score =
      pyRound1
        (((calculate_market_health [] []).dot_pipeline.score * 0.15 +
          (calculate_market_health [] []).housing_permits.score * 0.10 +
          (calculate_market_health [] []).construction_spending.score * 0.10 +
          (calculate_market_health [] []).migration.score * 0.10 +
          (calculate_market_health [] []).input_cost_stability.score * 0.08 +
          (calculate_market_health [] []).infrastructure_funding.score * 0.07) /
          ((0.15 : ℚ) + 0.10 + 0.10 + 0.10 + 0.08 + 0.07)) :=
  (C5_overall_score_weight_normalization [] []).2.2

/-- C8 witness: the MassDOT bound on a concrete failed fetch. -/
theorem C8_per_source_cap_witness :
    (parse_massdot (Except.error ())).length ≤ 50 :=
  C8_per_source_cap_amended.1 (Except.error ())

end Necmis
